import Mathlib

/-!
Verification of `src/man/sd_bus_service_reconnect.c`: a D-Bus service that
reconnects when the bus broker restarts.

The libsystemd calls (`sd_bus_new`, `sd_bus_set_address`, ...) are external to
this repository.  We model each call site by (a) the integer return code it
produces, supplied by an environment `Env` / `MainEnv` (fault injection), and
(b) its documented effect on the bus world: which handles are live, which are
attached to the event loop, which carry an object registration, a pending
name request, and a disconnect match.  A trace of events records the order of
the structural operations, so that temporal claims (detach before close) can
be stated.  The C functions `property_get`, `on_disconnect`, `setup` and
`main` are translated call site by call site over this model.
-/

/-- One entry appended to a reply message: a type string and a value,
as in `sd_bus_message_append(reply, "s", o->example)`. -/
abbrev Entry := String × String

/-- Result of the property getter: either a successful reply (the message
contents) or a bus error with an error name and a message string,
as set by `sd_bus_error_setf`. -/
inductive PropResult where
  | ok (reply : List Entry)
  | err (name : String) (message : String)
deriving DecidableEq, Repr

/-- Whether the getter produced a successful reply. -/
def PropResult.isOk : PropResult → Bool
  | .ok _ => true
  | .err _ _ => false

/-- Constant `SD_BUS_ERROR_UNKNOWN_PROPERTY` from `sd-bus.h`. -/
def SD_BUS_ERROR_UNKNOWN_PROPERTY : String :=
  "org.freedesktop.DBus.Error.UnknownProperty"

/-- A single-quote character, written via its code point. -/
def squote : String := String.singleton (Char.ofNat 39)

/-- The message produced by
`sd_bus_error_setf(error, ..., "Unknown property %s", property)` where the
format wraps the name in single quotes. -/
def unknownMsg (property : String) : String :=
  "Unknown property " ++ squote ++ property ++ squote

/-- Constant `EXIT_FAILURE` from `stdlib.h`. -/
def EXIT_FAILURE : Int := 1

/-- Structural events on the bus world, in the order they happen.
`detach` is `sd_bus_detach_event`, `close` is `sd_bus_close_unref`,
`create` is `sd_bus_new`, `addObject` is `sd_bus_add_object_vtable`,
`requestName` is `sd_bus_request_name_async`, `addMatch` is
`sd_bus_match_signal_async`, `attach` is `sd_bus_attach_event`. -/
inductive Event where
  | detach (id : Nat)
  | close (id : Nat)
  | create (id : Nat)
  | addObject (id : Nat)
  | requestName (id : Nat)
  | addMatch (id : Nat)
  | attach (id : Nat)
deriving DecidableEq, Repr

/-- Whether an event is a teardown event (detach or close); the fresh part
of a setup cycle emits no teardown events. -/
def isTeardown : Event → Bool
  | .detach _ => true
  | .close _ => true
  | _ => false

/-- The program state: the `object` struct of the C source (its `example`
string and, through `bus`/`event` pointers, the single mutable bus slot)
together with the bus world the libsystemd calls act on.  Handles are
numbered by creation order (`nextId` is fresh).  `live` holds handles that
were created and not yet closed; `attached`, `objects`, `names`, `watches`
hold the handles carrying an event-loop attachment, an object registration,
a pending well-known-name request, and a disconnect match respectively.
`trace` records structural events in order; `calls` records which checked
setup steps were invoked (numbered 1..12 in source order). -/
structure S where
  «example» : String
  nextId : Nat
  live : List Nat
  attached : List Nat
  objects : List Nat
  names : List Nat
  watches : List Nat
  trace : List Event
  calls : List Nat
  slot : Option Nat
deriving DecidableEq, Repr

/-- The state at the start of `main`: `bus = NULL`, `o.example = "example"`. -/
def initS : S :=
  { «example» := "example", nextId := 0, live := [], attached := [],
    objects := [], names := [], watches := [], trace := [], calls := [],
    slot := none }

/-- Return codes of the twelve checked libsystemd calls inside `setup`
(one `check(...)` per call site, in source order).  A negative value is a
failure; these calls are external to the repository, so their results are
environment inputs. -/
structure Env where
  r_detach : Int
  r_new : Int
  r_set_address : Int
  r_set_bus_client : Int
  r_negotiate_creds : Int
  r_set_watch_bind : Int
  r_set_connected_signal : Int
  r_start : Int
  r_add_object_vtable : Int
  r_request_name_async : Int
  r_match_signal_async : Int
  r_attach_event : Int
deriving DecidableEq, Repr

/-- The return code of setup step `k` (1 = detach, 2 = new, 3 = set_address,
4 = set_bus_client, 5 = negotiate_creds, 6 = set_watch_bind,
7 = set_connected_signal, 8 = start, 9 = add_object_vtable,
10 = request_name_async, 11 = match_signal_async, 12 = attach_event). -/
def stepResult (env : Env) (k : Nat) : Int :=
  if k = 1 then env.r_detach
  else if k = 2 then env.r_new
  else if k = 3 then env.r_set_address
  else if k = 4 then env.r_set_bus_client
  else if k = 5 then env.r_negotiate_creds
  else if k = 6 then env.r_set_watch_bind
  else if k = 7 then env.r_set_connected_signal
  else if k = 8 then env.r_start
  else if k = 9 then env.r_add_object_vtable
  else if k = 10 then env.r_request_name_async
  else if k = 11 then env.r_match_signal_async
  else if k = 12 then env.r_attach_event
  else 0

/-- Record that checked step `k` was invoked. -/
def call (s : S) (k : Nat) : S := { s with calls := s.calls ++ [k] }

/-- Effect of a successful `sd_bus_detach_event(*o->bus)`: the handle loses
its event-loop attachment. -/
def effDetach (i : Nat) (s : S) : S :=
  { s with attached := s.attached.erase i, trace := s.trace ++ [Event.detach i] }

/-- Effect of `*o->bus = sd_bus_close_unref(*o->bus)`: the handle is no
longer live, everything registered on it (object registration, name request,
disconnect match) is released with it, and the slot becomes empty.  This
call cannot fail; it returns `NULL`. -/
def effClose (i : Nat) (s : S) : S :=
  { s with live := s.live.erase i, objects := s.objects.erase i,
           names := s.names.erase i, watches := s.watches.erase i,
           trace := s.trace ++ [Event.close i], slot := none }

/-- Effect of a successful `sd_bus_new(o->bus)`: a fresh handle is created,
becomes live, and is stored in the slot. -/
def effCreate (s : S) : S :=
  { s with nextId := s.nextId + 1, live := s.live ++ [s.nextId],
           slot := some s.nextId, trace := s.trace ++ [Event.create s.nextId] }

/-- Effect of a successful `sd_bus_add_object_vtable(*o->bus, ...)`: the
handle currently in the slot gains an object registration. -/
def effObject (s : S) : S :=
  match s.slot with
  | none => s
  | some i =>
    { s with objects := s.objects ++ [i], trace := s.trace ++ [Event.addObject i] }

/-- Effect of a successful `sd_bus_request_name_async(*o->bus, ...)`: the
handle currently in the slot gains a pending well-known-name request. -/
def effName (s : S) : S :=
  match s.slot with
  | none => s
  | some i =>
    { s with names := s.names ++ [i], trace := s.trace ++ [Event.requestName i] }

/-- Effect of a successful `sd_bus_match_signal_async(*o->bus, ...)` for the
local `Disconnected` signal: the handle currently in the slot gains an armed
disconnect watch. -/
def effWatch (s : S) : S :=
  match s.slot with
  | none => s
  | some i =>
    { s with watches := s.watches ++ [i], trace := s.trace ++ [Event.addMatch i] }

/-- Effect of a successful `sd_bus_attach_event(*o->bus, *o->event, 0)`: the
handle currently in the slot is attached to the event loop. -/
def effAttach (s : S) : S :=
  match s.slot with
  | none => s
  | some i =>
    { s with attached := s.attached ++ [i], trace := s.trace ++ [Event.attach i] }

/-- Run a sequence of checked call sites, exactly as the `check` macro does:
invoke step `k`; a negative return code makes the enclosing function return
`EXIT_FAILURE` at once; otherwise apply the call's effect on the bus world
and continue with the next call site. -/
def runSteps (env : Env) : List (Nat × (S → S)) → S → Int × S
  | [], s => (0, s)
  | (k, eff) :: rest, s =>
    if stepResult env k < 0 then (EXIT_FAILURE, call s k)
    else runSteps env rest (eff (call s k))

/-- The eleven checked call sites of `setup` from `check(sd_bus_new(o->bus))`
(step 2) to `check(sd_bus_attach_event(...))` (step 12), in source order,
each paired with the effect a successful call has on the bus world; the
configuration calls (`sd_bus_set_address`, `sd_bus_set_bus_client`,
`sd_bus_negotiate_creds`, `sd_bus_set_watch_bind`,
`sd_bus_set_connected_signal`, `sd_bus_start`) only configure the handle
and have no effect on the components this development tracks. -/
def freshSteps : List (Nat × (S → S)) :=
  [(2, effCreate), (3, id), (4, id), (5, id), (6, id), (7, id), (8, id),
   (9, effObject), (10, effName), (11, effWatch), (12, effAttach)]

/-- The tail of `setup` from `check(sd_bus_new(o->bus))` on: run the eleven
checked call sites. -/
def setupFresh (env : Env) (s : S) : Int × S := runSteps env freshSteps s

/-- Function `setup(object *o)` of the source: if the slot holds a handle,
`check(sd_bus_detach_event)` (step 1) then
`*o->bus = sd_bus_close_unref(*o->bus)` — closing releases the handle and
everything registered on it and leaves the slot empty — and then the fresh
sequence `setupFresh`.  Returns `0` on success and `EXIT_FAILURE` when a
checked call returned a negative code. -/
def setup (env : Env) (s0 : S) : Int × S :=
  match s0.slot with
  | none => setupFresh env s0
  | some i =>
    if env.r_detach < 0 then (EXIT_FAILURE, call s0 1)
    else setupFresh env (effClose i (effDetach i (call s0 1)))

/-- Callback `on_disconnect` of the source:
`check(setup((object *)userdata)); return 0;` — the `check` macro returns
`EXIT_FAILURE` only when its argument is negative. -/
def on_disconnect (env : Env) (s : S) : Int × S :=
  let rs := setup env s
  if rs.1 < 0 then (EXIT_FAILURE, rs.2) else
  (0, rs.2)

/-- Return codes of the checked calls made directly by `main`, plus the
`Env` for the one `setup` invocation `main` makes before the loop. -/
structure MainEnv where
  r_event_default : Int
  r_add_sigint : Int
  r_add_sigterm : Int
  setupEnv : Env
  r_event_loop : Int
  r_release_name : Int
deriving DecidableEq, Repr

/-- Function `main` of the source: create the event loop, register the two
termination signals, run `setup`, run `sd_event_loop` until a termination
signal, then `check(sd_bus_release_name(bus, ...))` and return 0.  Every
call is wrapped in `check`, which returns `EXIT_FAILURE` on a negative
code. -/
def mainRun (m : MainEnv) : Int × S :=
  if m.r_event_default < 0 then (EXIT_FAILURE, initS) else
  if m.r_add_sigint < 0 then (EXIT_FAILURE, initS) else
  if m.r_add_sigterm < 0 then (EXIT_FAILURE, initS) else
  let rs := setup m.setupEnv initS
  if rs.1 < 0 then (EXIT_FAILURE, rs.2) else
  if m.r_event_loop < 0 then (EXIT_FAILURE, rs.2) else
  if m.r_release_name < 0 then (EXIT_FAILURE, rs.2) else
  (0, rs.2)

/-- Function `property_get` of the source
(`property_get(bus, path, interface, property, reply, userdata, error)`):
if the property is `"Example"` (byte-exact `strcmp`), append the object's
value to the reply; otherwise set the unknown-property error carrying the
offending name.  The state (userdata object and bus world) is returned
alongside to express that the getter does not modify it. -/
def property_get (s : S) (property : String) (reply : List Entry) :
    PropResult × S :=
  if property = "Example" then
    (PropResult.ok (reply ++ [("s", s.«example»)]), s)
  else
    (PropResult.err SD_BUS_ERROR_UNKNOWN_PROPERTY (unknownMsg property), s)

/-- An all-successful environment: every libsystemd call returns 0. -/
def goodEnv : Env :=
  { r_detach := 0, r_new := 0, r_set_address := 0, r_set_bus_client := 0,
    r_negotiate_creds := 0, r_set_watch_bind := 0, r_set_connected_signal := 0,
    r_start := 0, r_add_object_vtable := 0, r_request_name_async := 0,
    r_match_signal_async := 0, r_attach_event := 0 }

/-- The checked setup steps actually invoked for a given environment: walk
the step order; every step before the first failing one is invoked, the
first failing step is invoked (its failure is only visible after the call),
and nothing after it runs. -/
def stepsTaken (env : Env) : List Nat → List Nat
  | [] => []
  | k :: ks => if stepResult env k < 0 then [k] else k :: stepsTaken env ks

/-- The order of checked call sites in one `setup` invocation: step 1
(detach) only when the slot is populated (reconnect run), then steps 2..12. -/
def stepOrder (reconnecting : Bool) : List Nat :=
  (if reconnecting then [1] else []) ++ [2, 3, 4, 5, 6, 7, 8, 9, 10, 11, 12]

/-- A registration list holding either nothing or exactly the one handle `i`. -/
def ZeroOrOne (l : List Nat) (i : Nat) : Prop := l = [] ∨ l = [i]

/-- World invariant maintained by the connection manager across setup cycles,
successful or failed: with an empty slot nothing is live or registered; with
a populated slot that handle is the only live one and every registration
list holds at most that handle. -/
def WInv (s : S) : Prop :=
  match s.slot with
  | none => s.live = [] ∧ s.attached = [] ∧ s.objects = [] ∧ s.names = [] ∧
      s.watches = []
  | some i => i < s.nextId ∧ s.live = [i] ∧ ZeroOrOne s.attached i ∧
      ZeroOrOne s.objects i ∧ ZeroOrOne s.names i ∧ ZeroOrOne s.watches i

/-- The state after the initial `setup` from `main` (the fold's first
element) followed by any sequence of disconnect-triggered re-invocations of
`setup` through `on_disconnect`, each with its own environment. -/
def runCycles (envs : List Env) : S :=
  envs.foldl (fun t e => (on_disconnect e t).2) initS

/-- Environment in which `sd_bus_new` fails with `-ENOMEM` and every other
call succeeds. -/
def envC1 : Env := { goodEnv with r_new := -12 }

/-- Main-level environment for the run where the initial `setup` fails at
`sd_bus_new` and everything `main` calls directly succeeds. -/
def mEnvC1 : MainEnv :=
  { r_event_default := 0, r_add_sigint := 0, r_add_sigterm := 0,
    setupEnv := envC1, r_event_loop := 0, r_release_name := 0 }

/-- Main-level environment for the run where everything succeeds except the
shutdown-time `sd_bus_release_name`, which fails with `-EPERM`-style `-1`. -/
def mEnvC3 : MainEnv :=
  { r_event_default := 0, r_add_sigint := 0, r_add_sigterm := 0,
    setupEnv := goodEnv, r_event_loop := 0, r_release_name := -1 }

/-- Environment in which `sd_bus_negotiate_creds` (step 5) fails and every
other call succeeds. -/
def envC6 : Env := { goodEnv with r_negotiate_creds := -22 }

theorem runSteps_result (env : Env) (l : List (Nat × (S → S))) (s : S) :
    (runSteps env l s).1 = 0 ∨ (runSteps env l s).1 = EXIT_FAILURE := by
  induction l generalizing s with
  | nil => left; rfl
  | cons p rest ih =>
    rcases p with ⟨k, eff⟩
    simp only [runSteps]
    split_ifs
    · right; rfl
    · exact ih _

theorem runSteps_state_of_success (env : Env) (l : List (Nat × (S → S))) (s : S)
    (h : (runSteps env l s).1 = 0) :
    (runSteps env l s).2 = l.foldl (fun t q => q.2 (call t q.1)) s := by
  induction l generalizing s with
  | nil => rfl
  | cons p rest ih =>
    rcases p with ⟨k, eff⟩
    simp only [runSteps] at h ⊢
    split_ifs at h ⊢ with c
    · simp [EXIT_FAILURE] at h
    · simpa using ih _ h

theorem setupFresh_result (env : Env) (s : S) :
    (setupFresh env s).1 = 0 ∨ (setupFresh env s).1 = EXIT_FAILURE :=
  runSteps_result env freshSteps s

theorem setup_result (env : Env) (s : S) :
    (setup env s).1 = 0 ∨ (setup env s).1 = EXIT_FAILURE := by
  unfold setup
  cases hs : s.slot with
  | none => exact setupFresh_result env s
  | some i =>
    split_ifs
    · right; rfl
    · exact setupFresh_result env _

theorem setup_result_nonneg (env : Env) (s : S) : 0 ≤ (setup env s).1 := by
  rcases setup_result env s with h | h
  · rw [h]
  · rw [h]; decide

theorem on_disconnect_state (env : Env) (s : S) :
    (on_disconnect env s).2 = (setup env s).2 := by
  unfold on_disconnect
  dsimp only
  split_ifs <;> rfl

theorem runSteps_field {α : Type} (f : S → α) (env : Env)
    (l : List (Nat × (S → S))) (s : S)
    (hcall : ∀ t k, f (call t k) = f t)
    (heff : ∀ p ∈ l, ∀ t, f (p.2 t) = f t) :
    f (runSteps env l s).2 = f s := by
  induction l generalizing s with
  | nil => rfl
  | cons p rest ih =>
    rcases p with ⟨k, eff⟩
    simp only [runSteps]
    split_ifs
    · exact hcall s k
    · rw [ih _ fun q hq t => heff q (List.mem_cons_of_mem _ hq) t]
      rw [heff ⟨k, eff⟩ (List.mem_cons_self _ _) (call s k), hcall]

theorem setupFresh_example (env : Env) (s : S) :
    ((setupFresh env s).2).«example» = s.«example» := by
  refine runSteps_field (fun t => t.«example») env freshSteps s (fun t k => rfl) ?_
  intro p hp t
  fin_cases hp <;>
    simp [effCreate, effObject, effName, effWatch, effAttach] <;>
    cases ht : t.slot <;>
    simp [effObject, effName, effWatch, effAttach, ht]

theorem runSteps_calls (env : Env) (l : List (Nat × (S → S))) (s : S)
    (heff : ∀ p ∈ l, ∀ t, (p.2 t).calls = t.calls) :
    (runSteps env l s).2.calls = s.calls ++ stepsTaken env (l.map Prod.fst) := by
  induction l generalizing s with
  | nil => simp [runSteps, stepsTaken]
  | cons p rest ih =>
    rcases p with ⟨k, eff⟩
    simp only [runSteps, List.map_cons, stepsTaken]
    split_ifs
    · simp [call]
    · rw [ih _ fun q hq t => heff q (List.mem_cons_of_mem _ hq) t]
      rw [heff ⟨k, eff⟩ (List.mem_cons_self _ _) (call s k)]
      simp [call]

theorem runSteps_success (env : Env) (l : List (Nat × (S → S))) (s : S) :
    (runSteps env l s).1 = 0 ↔ ∀ k ∈ l.map Prod.fst, 0 ≤ stepResult env k := by
  induction l generalizing s with
  | nil => simp [runSteps]
  | cons p rest ih =>
    rcases p with ⟨k, eff⟩
    simp only [runSteps, List.map_cons, List.forall_mem_cons]
    split_ifs with c
    · simp only [EXIT_FAILURE]
      constructor
      · intro h; exact absurd h (by decide)
      · intro h; omega
    · rw [ih]
      constructor
      · intro h; exact ⟨by omega, h⟩
      · intro h; exact h.2

theorem runSteps_trace (env : Env) (l : List (Nat × (S → S))) (s : S)
    (heff : ∀ p ∈ l, ∀ t, ∃ add, (p.2 t).trace = t.trace ++ add ∧
      ∀ e ∈ add, isTeardown e = false) :
    ∃ ext, (runSteps env l s).2.trace = s.trace ++ ext ∧
      ∀ e ∈ ext, isTeardown e = false := by
  induction l generalizing s with
  | nil => exact ⟨[], by simp [runSteps], by simp⟩
  | cons p rest ih =>
    rcases p with ⟨k, eff⟩
    simp only [runSteps]
    split_ifs
    · exact ⟨[], by simp [call], by simp⟩
    · obtain ⟨add, hadd, hgood⟩ := heff ⟨k, eff⟩ (List.mem_cons_self _ _) (call s k)
      obtain ⟨ext, hext, hgood2⟩ :=
        ih (eff (call s k)) (fun q hq t => heff q (List.mem_cons_of_mem _ hq) t)
      refine ⟨add ++ ext, ?_, ?_⟩
      · rw [hext, hadd]; simp [call]
      · intro e he
        rcases List.mem_append.mp he with h | h
        · exact hgood e h
        · exact hgood2 e h

theorem freshSteps_trace_good :
    ∀ p ∈ freshSteps, ∀ t : S, ∃ add, (p.2 t).trace = t.trace ++ add ∧
      ∀ e ∈ add, isTeardown e = false := by
  intro p hp t
  fin_cases hp
  · exact ⟨[Event.create t.nextId], by simp [effCreate], by simp [isTeardown]⟩
  · exact ⟨[], by simp, by simp⟩
  · exact ⟨[], by simp, by simp⟩
  · exact ⟨[], by simp, by simp⟩
  · exact ⟨[], by simp, by simp⟩
  · exact ⟨[], by simp, by simp⟩
  · exact ⟨[], by simp, by simp⟩
  · cases ht : t.slot with
    | none => exact ⟨[], by simp [effObject, ht], by simp⟩
    | some i =>
      exact ⟨[Event.addObject i], by simp [effObject, ht], by simp [isTeardown]⟩
  · cases ht : t.slot with
    | none => exact ⟨[], by simp [effName, ht], by simp⟩
    | some i =>
      exact ⟨[Event.requestName i], by simp [effName, ht], by simp [isTeardown]⟩
  · cases ht : t.slot with
    | none => exact ⟨[], by simp [effWatch, ht], by simp⟩
    | some i =>
      exact ⟨[Event.addMatch i], by simp [effWatch, ht], by simp [isTeardown]⟩
  · cases ht : t.slot with
    | none => exact ⟨[], by simp [effAttach, ht], by simp⟩
    | some i =>
      exact ⟨[Event.attach i], by simp [effAttach, ht], by simp [isTeardown]⟩

theorem setupFresh_WInv (env : Env) (s : S) (h1 : s.slot = none)
    (h2 : s.live = []) (h3 : s.attached = []) (h4 : s.objects = [])
    (h5 : s.names = []) (h6 : s.watches = []) :
    WInv (setupFresh env s).2 := by
  unfold setupFresh freshSteps
  simp only [runSteps]
  by_cases c2 : stepResult env 2 < 0
  · rw [if_pos c2]
    simp [WInv, call, h1, h2, h3, h4, h5, h6]
  rw [if_neg c2]
  by_cases c3 : stepResult env 3 < 0
  · rw [if_pos c3]
    simp [WInv, ZeroOrOne, call, effCreate, h2, h3, h4, h5, h6]
  rw [if_neg c3]
  by_cases c4 : stepResult env 4 < 0
  · rw [if_pos c4]
    simp [WInv, ZeroOrOne, call, effCreate, h2, h3, h4, h5, h6]
  rw [if_neg c4]
  by_cases c5 : stepResult env 5 < 0
  · rw [if_pos c5]
    simp [WInv, ZeroOrOne, call, effCreate, h2, h3, h4, h5, h6]
  rw [if_neg c5]
  by_cases c6 : stepResult env 6 < 0
  · rw [if_pos c6]
    simp [WInv, ZeroOrOne, call, effCreate, h2, h3, h4, h5, h6]
  rw [if_neg c6]
  by_cases c7 : stepResult env 7 < 0
  · rw [if_pos c7]
    simp [WInv, ZeroOrOne, call, effCreate, h2, h3, h4, h5, h6]
  rw [if_neg c7]
  by_cases c8 : stepResult env 8 < 0
  · rw [if_pos c8]
    simp [WInv, ZeroOrOne, call, effCreate, h2, h3, h4, h5, h6]
  rw [if_neg c8]
  by_cases c9 : stepResult env 9 < 0
  · rw [if_pos c9]
    simp [WInv, ZeroOrOne, call, effCreate, h2, h3, h4, h5, h6]
  rw [if_neg c9]
  by_cases c10 : stepResult env 10 < 0
  · rw [if_pos c10]
    simp [WInv, ZeroOrOne, call, effCreate, effObject, h2, h3, h4, h5, h6]
  rw [if_neg c10]
  by_cases c11 : stepResult env 11 < 0
  · rw [if_pos c11]
    simp [WInv, ZeroOrOne, call, effCreate, effObject, effName, h2, h3, h4, h5, h6]
  rw [if_neg c11]
  by_cases c12 : stepResult env 12 < 0
  · rw [if_pos c12]
    simp [WInv, ZeroOrOne, call, effCreate, effObject, effName, effWatch,
      h2, h3, h4, h5, h6]
  rw [if_neg c12]
  simp [WInv, ZeroOrOne, call, effCreate, effObject, effName, effWatch, effAttach,
    h2, h3, h4, h5, h6]

theorem setup_WInv (env : Env) (s : S) (h : WInv s) : WInv (setup env s).2 := by
  unfold setup
  cases hs : s.slot with
  | none =>
    simp only [WInv, hs] at h
    exact setupFresh_WInv env s hs h.1 h.2.1 h.2.2.1 h.2.2.2.1 h.2.2.2.2
  | some i =>
    simp only [WInv, hs] at h
    obtain ⟨hlt, hlive, ha, ho, hn, hw⟩ := h
    split_ifs with hd
    · simp only [WInv, ZeroOrOne, call]
      rw [hs]
      exact ⟨hlt, hlive, ha, ho, hn, hw⟩
    · apply setupFresh_WInv
      · rfl
      · simp [effClose, effDetach, call, hlive]
      · rcases ha with ha | ha <;> simp [effClose, effDetach, call, ha]
      · rcases ho with ho | ho <;> simp [effClose, effDetach, call, ho]
      · rcases hn with hn | hn <;> simp [effClose, effDetach, call, hn]
      · rcases hw with hw | hw <;> simp [effClose, effDetach, call, hw]

theorem setup_success_state (env : Env) (s : S) (h : WInv s)
    (h0 : (setup env s).1 = 0) :
    ∃ j, (setup env s).2.slot = some j ∧ (setup env s).2.live = [j] ∧
      (setup env s).2.attached = [j] ∧ (setup env s).2.objects = [j] ∧
      (setup env s).2.names = [j] ∧ (setup env s).2.watches = [j] ∧
      ∀ i, s.slot = some i → i ∉ (setup env s).2.live := by
  unfold setup at h0 ⊢
  cases hs : s.slot with
  | none =>
    rw [hs] at h0
    dsimp only at h0 ⊢
    unfold setupFresh at h0 ⊢
    have hstate := runSteps_state_of_success env freshSteps s h0
    simp only [WInv, hs] at h
    obtain ⟨h2, h3, h4, h5, h6⟩ := h
    rw [hstate]
    refine ⟨s.nextId, ?_, ?_, ?_, ?_, ?_, ?_, ?_⟩
    · simp [freshSteps, call, effCreate, effObject, effName, effWatch, effAttach]
    · simp [freshSteps, call, effCreate, effObject, effName, effWatch, effAttach, h2]
    · simp [freshSteps, call, effCreate, effObject, effName, effWatch, effAttach, h3]
    · simp [freshSteps, call, effCreate, effObject, effName, effWatch, effAttach, h4]
    · simp [freshSteps, call, effCreate, effObject, effName, effWatch, effAttach, h5]
    · simp [freshSteps, call, effCreate, effObject, effName, effWatch, effAttach, h6]
    · intro i0 hi0
      simp at hi0
  | some i =>
    simp only [WInv, hs] at h
    obtain ⟨hlt, hlive, ha, ho, hn, hw⟩ := h
    rw [hs] at h0
    dsimp only at h0 ⊢
    split_ifs at h0 ⊢ with hd
    · simp [EXIT_FAILURE] at h0
    · unfold setupFresh at h0 ⊢
      have hstate := runSteps_state_of_success env freshSteps _ h0
      rw [hstate]
      refine ⟨s.nextId, ?_, ?_, ?_, ?_, ?_, ?_, ?_⟩
      · simp [freshSteps, call, effCreate, effObject, effName, effWatch, effAttach,
          effClose, effDetach]
      · simp [freshSteps, call, effCreate, effObject, effName, effWatch, effAttach,
          effClose, effDetach, hlive]
      · rcases ha with ha | ha <;>
          simp [freshSteps, call, effCreate, effObject, effName, effWatch, effAttach,
            effClose, effDetach, ha]
      · rcases ho with ho | ho <;>
          simp [freshSteps, call, effCreate, effObject, effName, effWatch, effAttach,
            effClose, effDetach, ho]
      · rcases hn with hn | hn <;>
          simp [freshSteps, call, effCreate, effObject, effName, effWatch, effAttach,
            effClose, effDetach, hn]
      · rcases hw with hw | hw <;>
          simp [freshSteps, call, effCreate, effObject, effName, effWatch, effAttach,
            effClose, effDetach, hw]
      · intro i0 hi0
        injection hi0 with hi0
        subst hi0
        simp [freshSteps, call, effCreate, effObject, effName, effWatch, effAttach,
          effClose, effDetach, hlive]
        omega

theorem WInv_initS : WInv initS := by simp [WInv, initS]

theorem WInv_runCycles (envs : List Env) : WInv (runCycles envs) := by
  unfold runCycles
  suffices h : ∀ s, WInv s →
      WInv (envs.foldl (fun t e => (on_disconnect e t).2) s) from h initS WInv_initS
  induction envs with
  | nil => intro s hs; exact hs
  | cons e rest ih =>
    intro s hs
    simp only [List.foldl_cons]
    exact ih _ (by rw [on_disconnect_state]; exact setup_WInv e s hs)

theorem setup_example (env : Env) (s : S) :
    ((setup env s).2).«example» = s.«example» := by
  unfold setup
  cases hs : s.slot with
  | none => exact setupFresh_example env s
  | some i =>
    dsimp only
    split_ifs
    · rfl
    · rw [setupFresh_example]
      rfl

theorem runCycles_example (envs : List Env) :
    (runCycles envs).«example» = "example" := by
  unfold runCycles
  suffices h : ∀ s : S,
      (envs.foldl (fun t e => (on_disconnect e t).2) s).«example» = s.«example» by
    rw [h initS]; rfl
  induction envs with
  | nil => intro s; rfl
  | cons e rest ih =>
    intro s
    simp only [List.foldl_cons]
    rw [ih, on_disconnect_state, setup_example]

theorem freshSteps_calls_good :
    ∀ p ∈ freshSteps, ∀ t : S, (p.2 t).calls = t.calls := by
  intro p hp t
  fin_cases hp
  · simp [effCreate]
  · rfl
  · rfl
  · rfl
  · rfl
  · rfl
  · rfl
  · cases ht : t.slot <;> simp [effObject, ht]
  · cases ht : t.slot <;> simp [effName, ht]
  · cases ht : t.slot <;> simp [effWatch, ht]
  · cases ht : t.slot <;> simp [effAttach, ht]

theorem freshSteps_map :
    freshSteps.map Prod.fst = [2, 3, 4, 5, 6, 7, 8, 9, 10, 11, 12] := rfl

/-- C1 (the code contradicts this claim): with `sd_bus_new` failing with
`-ENOMEM` during the initial `setup` from `main`, `setup` returns
`EXIT_FAILURE = 1`, a non-negative value, so the `check(setup(&o))` wrapper
in `main` does not fire, the process continues into the event loop and
exits with status 0 instead of terminating with a non-zero status. -/
theorem main_continues_after_setup_failure :
    stepResult envC1 2 < 0 ∧ (setup envC1 initS).1 = EXIT_FAILURE ∧
    0 ≤ (setup envC1 initS).1 ∧ (mainRun mEnvC1).1 = 0 := by decide

/-- C2: after the initial `setup` and any sequence of disconnect-triggered
re-invocations, a successfully completed `setup` cycle leaves exactly one
live handle in the slot, with exactly one event-loop attachment, one object
registration, one name request and one armed disconnect watch on it — never
zero, never two — and any previously held handle is no longer live. -/
theorem setup_cycle_exactly_one (envs : List Env) (env : Env)
    (h0 : (setup env (runCycles envs)).1 = 0) :
    ∃ j, (setup env (runCycles envs)).2.slot = some j ∧
      (setup env (runCycles envs)).2.live = [j] ∧
      (setup env (runCycles envs)).2.attached = [j] ∧
      (setup env (runCycles envs)).2.objects = [j] ∧
      (setup env (runCycles envs)).2.names = [j] ∧
      (setup env (runCycles envs)).2.watches = [j] ∧
      ∀ i, (runCycles envs).slot = some i →
        i ∉ (setup env (runCycles envs)).2.live :=
  setup_success_state env (runCycles envs) (WInv_runCycles envs) h0

/-- Witness for C2: one successful cycle after one successful reconnect. -/
theorem setup_cycle_exactly_one_witness :
    (setup goodEnv (runCycles [goodEnv])).1 = 0 ∧
    ∃ j, (setup goodEnv (runCycles [goodEnv])).2.slot = some j ∧
      (setup goodEnv (runCycles [goodEnv])).2.live = [j] ∧
      (setup goodEnv (runCycles [goodEnv])).2.attached = [j] ∧
      (setup goodEnv (runCycles [goodEnv])).2.objects = [j] ∧
      (setup goodEnv (runCycles [goodEnv])).2.names = [j] ∧
      (setup goodEnv (runCycles [goodEnv])).2.watches = [j] ∧
      ∀ i, (runCycles [goodEnv]).slot = some i →
        i ∉ (setup goodEnv (runCycles [goodEnv])).2.live :=
  ⟨by decide, setup_cycle_exactly_one [goodEnv] goodEnv (by decide)⟩

/-- C3 counterexample: when the shutdown-time `sd_bus_release_name` returns
a negative code, `main` returns `EXIT_FAILURE`, not 0 — the release failure
does change the exit status, contradicting the claim that it is best-effort
and leaves the exit path unchanged. -/
theorem release_failure_changes_exit_status :
    mEnvC3.r_release_name < 0 ∧ (mainRun mEnvC3).1 = EXIT_FAILURE ∧
    ¬ (mainRun mEnvC3).1 = 0 := by decide

/-- C3 as amended: once the loop has returned (event-loop creation, both
signal registrations and the loop itself succeeded — the `setup` result is
irrelevant since it is never negative), `main` releases the name and exits
0 when the release succeeds, but exits `EXIT_FAILURE` when the release
returns a negative code. -/
theorem main_shutdown_release (m : MainEnv)
    (h1 : 0 ≤ m.r_event_default) (h2 : 0 ≤ m.r_add_sigint)
    (h3 : 0 ≤ m.r_add_sigterm) (h4 : 0 ≤ m.r_event_loop) :
    (mainRun m).1 = if m.r_release_name < 0 then EXIT_FAILURE else 0 := by
  unfold mainRun
  dsimp only
  rw [if_neg (not_lt.mpr h1), if_neg (not_lt.mpr h2), if_neg (not_lt.mpr h3),
    if_neg (not_lt.mpr (setup_result_nonneg m.setupEnv initS)),
    if_neg (not_lt.mpr h4)]
  split_ifs <;> rfl

/-- Witness for the amended C3 at the failing-release environment. -/
theorem main_shutdown_release_witness :
    (0 ≤ mEnvC3.r_event_default ∧ 0 ≤ mEnvC3.r_add_sigint ∧
      0 ≤ mEnvC3.r_add_sigterm ∧ 0 ≤ mEnvC3.r_event_loop) ∧
    (mainRun mEnvC3).1
        = if mEnvC3.r_release_name < 0 then EXIT_FAILURE else 0 :=
  ⟨⟨by decide, by decide, by decide, by decide⟩,
   main_shutdown_release mEnvC3 (by decide) (by decide) (by decide) (by decide)⟩

/-- C4: for every call to the property getter, the name `"Example"` yields a
successful reply carrying the current value, and any other name yields the
unknown-property error whose message carries the offending name; the getter
is a total function, so no call crashes the service. -/
theorem property_get_ok_or_unknown (s : S) (p : String) (r : List Entry) :
    (p = "Example" →
      property_get s p r = (PropResult.ok (r ++ [("s", s.«example»)]), s)) ∧
    (p ≠ "Example" →
      (property_get s p r).1
          = PropResult.err SD_BUS_ERROR_UNKNOWN_PROPERTY (unknownMsg p) ∧
        ∃ a b, unknownMsg p = a ++ p ++ b) := by
  constructor
  · intro hp
    simp [property_get, hp]
  · intro hp
    refine ⟨by simp [property_get, hp], "Unknown property " ++ squote, squote, ?_⟩
    simp [unknownMsg, String.append_assoc]

/-- Witness for C4 at concrete inputs. -/
theorem property_get_ok_or_unknown_witness :
    property_get initS "Example" [] = (PropResult.ok [("s", "example")], initS) ∧
    (property_get initS "Zzz" []).1
        = PropResult.err SD_BUS_ERROR_UNKNOWN_PROPERTY (unknownMsg "Zzz") := by
  refine ⟨?_, ((property_get_ok_or_unknown initS "Zzz" []).2 (by decide)).1⟩
  have h := (property_get_ok_or_unknown initS "Example" []).1 rfl
  simpa [initS] using h

/-- C5: in every `setup` invocation whose slot holds a handle (and whose
detach call does not fail, so that the teardown proceeds), the trace gains
exactly the detach of that handle, then its close, and then only
non-teardown events (creation and registrations of the new handle): detach
strictly precedes close, and both precede the creation of a new handle. -/
theorem detach_then_close_then_create (env : Env) (s : S) (i : Nat)
    (hs : s.slot = some i) (hd : 0 ≤ env.r_detach) :
    ∃ ext, (setup env s).2.trace
        = s.trace ++ Event.detach i :: Event.close i :: ext ∧
      ∀ e ∈ ext, isTeardown e = false := by
  unfold setup
  rw [hs]
  dsimp only
  rw [if_neg (not_lt.mpr hd)]
  obtain ⟨ext, hext, hgood⟩ := runSteps_trace env freshSteps
    (effClose i (effDetach i (call s 1))) freshSteps_trace_good
  refine ⟨ext, ?_, hgood⟩
  unfold setupFresh
  rw [hext]
  simp [effClose, effDetach, call]

/-- Witness for C5: the reconnect cycle after one successful setup. -/
theorem detach_then_close_then_create_witness :
    ((setup goodEnv initS).2.slot = some 0 ∧ 0 ≤ goodEnv.r_detach) ∧
    ∃ ext, (setup goodEnv (setup goodEnv initS).2).2.trace
        = (setup goodEnv initS).2.trace
            ++ Event.detach 0 :: Event.close 0 :: ext ∧
      ∀ e ∈ ext, isTeardown e = false :=
  ⟨⟨by decide, by decide⟩,
   detach_then_close_then_create goodEnv (setup goodEnv initS).2 0
     (by decide) (by decide)⟩

/-- C6: `setup` short-circuits at the first failing step: the checked call
sites invoked are exactly the step order walked up to and including the
first step with a negative result (every step before it succeeded, nothing
after it runs), and `setup` returns 0 exactly when every step in the order
returned a non-negative result. -/
theorem setup_short_circuit (env : Env) (s : S) :
    (setup env s).2.calls = s.calls ++ stepsTaken env (stepOrder s.slot.isSome) ∧
    ((setup env s).1 = 0 ↔ ∀ k ∈ stepOrder s.slot.isSome, 0 ≤ stepResult env k) := by
  unfold setup
  cases hs : s.slot with
  | none =>
    dsimp only
    constructor
    · unfold setupFresh
      rw [runSteps_calls env freshSteps s freshSteps_calls_good, freshSteps_map]
      simp [stepOrder]
    · unfold setupFresh
      rw [runSteps_success, freshSteps_map]
      simp [stepOrder]
  | some i =>
    dsimp only
    split_ifs with hd
    · constructor
      · simp [call, stepOrder, stepsTaken, stepResult, hd]
      · constructor
        · intro h
          simp [EXIT_FAILURE] at h
        · intro h
          have h1 := h 1 (by simp [stepOrder])
          simp [stepResult] at h1
          omega
    · have hd' : 0 ≤ env.r_detach := not_lt.mp hd
      constructor
      · unfold setupFresh
        rw [runSteps_calls env freshSteps _ freshSteps_calls_good, freshSteps_map]
        simp [call, effClose, effDetach, stepOrder, stepsTaken, stepResult, hd]
      · unfold setupFresh
        rw [runSteps_success, freshSteps_map]
        simp [stepOrder, stepResult, hd']

/-- Witness for C6: with step 5 (`sd_bus_negotiate_creds`) failing, steps
2..5 are invoked, steps 6..12 never run, and `setup` fails. -/
theorem setup_short_circuit_witness :
    ((setup envC6 initS).2.calls = [2, 3, 4, 5] ∧
      (setup envC6 initS).1 = EXIT_FAILURE) ∧
    ((setup envC6 initS).2.calls
        = initS.calls ++ stepsTaken envC6 (stepOrder initS.slot.isSome) ∧
      ((setup envC6 initS).1 = 0 ↔
        ∀ k ∈ stepOrder initS.slot.isSome, 0 ≤ stepResult envC6 k)) :=
  ⟨by decide, setup_short_circuit envC6 initS⟩

/-- C7: the property value is constant: after the initial `setup` and any
number of reconnect cycles the getter still answers `"example"` for
`"Example"`; no operation of the program (`setup`, `on_disconnect`,
`property_get`) ever writes the value. -/
theorem property_value_constant :
    (∀ (envs : List Env) (r : List Entry),
      (property_get (runCycles envs) "Example" r).1
          = PropResult.ok (r ++ [("s", "example")])) ∧
    (∀ (env : Env) (s : S), ((setup env s).2).«example» = s.«example» ∧
      ((on_disconnect env s).2).«example» = s.«example») ∧
    (∀ (s : S) (p : String) (r : List Entry),
      ((property_get s p r).2).«example» = s.«example») := by
  refine ⟨?_, ?_, ?_⟩
  · intro envs r
    simp [property_get, runCycles_example]
  · intro env s
    refine ⟨setup_example env s, ?_⟩
    rw [on_disconnect_state, setup_example]
  · intro s p r
    by_cases hp : p = "Example" <;> simp [property_get, hp]

/-- C8: the getter never modifies the shared object state (the state it is
handed back is exactly the one it was given, whatever the property name),
and its result depends only on the immutable value, never on the Transport
Handle or any other world component. -/
theorem property_get_no_side_effects (s : S) (p : String) (r : List Entry) :
    (property_get s p r).2 = s ∧
    (∀ t : S, t.«example» = s.«example» →
      (property_get t p r).1 = (property_get s p r).1) := by
  constructor
  · by_cases hp : p = "Example" <;> simp [property_get, hp]
  · intro t ht
    by_cases hp : p = "Example" <;> simp [property_get, hp, ht]

/-- Witness for C8 at concrete inputs. -/
theorem property_get_no_side_effects_witness :
    (property_get initS "Example" []).2 = initS ∧
    (property_get { initS with live := [7], slot := some 7 } "Example" []).1
        = (property_get initS "Example" []).1 :=
  ⟨(property_get_no_side_effects initS "Example" []).1,
   (property_get_no_side_effects initS "Example" []).2
     { initS with live := [7], slot := some 7 } rfl⟩

/-- C9: `setup` returns only 0 or `EXIT_FAILURE = 1`, never a negative
value; hence the `check` wrapper applied to its result never takes the
failure branch, and `on_disconnect` returns 0 whatever `setup` did. -/
theorem setup_result_zero_or_one (env : Env) (s : S) :
    ((setup env s).1 = 0 ∨ (setup env s).1 = EXIT_FAILURE) ∧
    0 ≤ (setup env s).1 ∧ EXIT_FAILURE = 1 ∧
    on_disconnect env s = (0, (setup env s).2) := by
  refine ⟨setup_result env s, setup_result_nonneg env s, rfl, ?_⟩
  unfold on_disconnect
  dsimp only
  rw [if_neg (not_lt.mpr (setup_result_nonneg env s))]

/-- C10: the property-name comparison is byte-exact `strcmp` equality: the
getter succeeds exactly on `"Example"`, and every other string — including
the lowercase `"example"` — gets the unknown-property error. -/
theorem property_name_byte_exact (s : S) (p : String) (r : List Entry) :
    (((property_get s p r).1).isOk = true ↔ p = "Example") ∧
    (property_get s "example" r).1
        = PropResult.err SD_BUS_ERROR_UNKNOWN_PROPERTY (unknownMsg "example") := by
  constructor
  · by_cases hp : p = "Example" <;>
      simp [property_get, hp, PropResult.isOk]
  · simp [property_get, PropResult.isOk]
